import Mathlib

/-!
Verification of the SOAP action/response layer of the rust-igd crate
(`src/external.rs`), shallowly embedded in Lean.

Modelling conventions:
* Rust `String`/`&str` values are Lean `String`s; character-level reasoning
  happens on `String.data : List Char`.
* Rust `u16`/`u32` values are embedded as `Nat`; the only operation the code
  performs on them is decimal `Display` formatting, which agrees with the
  formatting of the corresponding `Nat` (embedded below as `natDisplay`).
* The SOAP/HTTP transport collaborator `soap::send` is out of scope of the
  core (it lives in `soap.rs`, which is not part of the analysed source); the
  public operations are therefore parameterised by a `send` function of the
  collaborator's type `url → action → body → Result<String, soap::Error>`.
* A Rust panic (the `.unwrap()` in `extract_address`) is modelled by `none`
  in an `Option`-wrapped result type.
-/

set_option maxRecDepth 4000

namespace Igd

/-- Embeds `std::net::Ipv4Addr`: four octets.  The Rust type stores `u8`s;
here the octets are `Nat`s, and every address the embedded code constructs
has octets ≤ 255. -/
structure Ipv4Addr where
  o1 : Nat
  o2 : Nat
  o3 : Nat
  o4 : Nat
deriving DecidableEq

/-- `src/external.rs` lines 53-57: `pub enum PortMappingProtocol { TCP, UDP }`. -/
inductive PortMappingProtocol where
  | TCP
  | UDP
deriving DecidableEq

/-- `src/external.rs` lines 59-66: the `fmt::Display` impl renders the
protocol as its uppercase literal. -/
def PortMappingProtocol.display : PortMappingProtocol → String
  | .TCP => "TCP"
  | .UDP => "UDP"

/-- Opaque payload of `hyper::Error` (external library type); only carried,
never inspected, by the analysed code. -/
structure HyperError where
  msg : String
deriving DecidableEq

/-- Opaque payload of `std::io::Error` (library type); only carried, never
inspected, by the analysed code. -/
structure IoErr where
  msg : String
deriving DecidableEq

namespace soap

/-- Modelled from the spec: `soap::Error`, the transport collaborator's error
type (defined in `soap.rs`, which is outside the analysed source).  Its two
cases are fully determined by the exhaustive `match` in the
`From<soap::Error> for RequestError` impl at `src/external.rs` lines 44-51. -/
inductive Error where
  | HttpError (e : HyperError)
  | IoError (e : IoErr)
deriving DecidableEq

/-- Modelled from the spec: `soap::Action`, a wrapper around the SOAPAction
header value, built with `soap::Action::new(&str)` as used at
`src/external.rs` lines 73, 113 and 139. -/
structure Action where
  name : String
deriving DecidableEq

/-- `soap::Action::new`. -/
def Action.new (s : String) : Action := ⟨s⟩

end soap

/-- `src/external.rs` lines 30-35: `pub enum RequestError`.  Constructors in
source order. -/
inductive RequestError where
  | HttpError (e : HyperError)
  | InvalidResponse
  | IoError (e : IoErr)
deriving DecidableEq

/-- Index of a `RequestError` value's variant, in source declaration order.
Used to state claims about the number of variants of the enum. -/
def RequestError.variantTag : RequestError → Nat
  | .HttpError _ => 0
  | .InvalidResponse => 1
  | .IoError _ => 2

/-- `src/external.rs` lines 44-51: `impl From<soap::Error> for RequestError`. -/
def RequestError.ofSoap : soap.Error → RequestError
  | .HttpError e => .HttpError e
  | .IoError e => .IoError e

/-- Decimal digit character (defined for 0-9; the fall-through case is never
reached by `natDigitsAux`). -/
def digitChar : Nat → Char
  | 0 => '0'
  | 1 => '1'
  | 2 => '2'
  | 3 => '3'
  | 4 => '4'
  | 5 => '5'
  | 6 => '6'
  | 7 => '7'
  | 8 => '8'
  | 9 => '9'
  | _ => '0'

/-- Decimal digit list of `n`, most significant first; fuelled recursion
(`fuel > n` suffices, and `natDisplay` passes `n + 1`). -/
def natDigitsAux : Nat → Nat → List Char
  | 0, _ => []
  | fuel + 1, n =>
    if n < 10 then [digitChar n]
    else natDigitsAux fuel (n / 10) ++ [digitChar (n % 10)]

/-- Embeds Rust's decimal `Display` for unsigned integers (`u16`/`u32`). -/
def natDisplay (n : Nat) : String := ⟨natDigitsAux (n + 1) n⟩

/-- Embeds `std::net::Ipv4Addr`'s `Display`: dotted-quad decimal. -/
def ipv4Display (a : Ipv4Addr) : String :=
  natDisplay a.o1 ++ "." ++ natDisplay a.o2 ++ "." ++ natDisplay a.o3 ++ "." ++ natDisplay a.o4

/-- Embeds `std::net::SocketAddr` as used by the code: a `.ip()` and a
`.port()`.  (The std type also admits IPv6 addresses; all claims under
verification concern the IPv4 form, so only it is embedded.) -/
structure SocketAddr where
  ip : Ipv4Addr
  port : Nat
deriving DecidableEq

/-- Modelled from the spec: the `Gateway` descriptor (defined in
`gateway.rs`, outside the analysed source): a reachable socket address plus
the control path, exactly the two fields `gateway.addr` and
`gateway.control_url` read by `src/external.rs`. -/
structure Gateway where
  addr : SocketAddr
  control_url : String
deriving DecidableEq

/-- Modelled from the spec: `Gateway`'s `Display` (used by `add_port` and
`remove_port` via `format!("{}", gateway)`), which per spec §6 renders the
gateway's control URL `http://{host}:{port}{control_path}`. -/
def gatewayDisplay (g : Gateway) : String :=
  "http://" ++ ipv4Display g.addr.ip ++ ":" ++ natDisplay g.addr.port ++ g.control_url

/-- `src/external.rs` lines 12-18: the fixed GetExternalIPAddress request
body (`EXTERNAL_IP_REQUEST`). -/
def EXTERNAL_IP_REQUEST : String :=
"<SOAP-ENV:Envelope SOAP-ENV:encodingStyle=\"http://schemas.xmlsoap.org/soap/encoding/\" xmlns:SOAP-ENV=\"http://schemas.xmlsoap.org/soap/envelope/\">\n    <SOAP-ENV:Body>\n        <m:GetExternalIPAddress xmlns:m=\"urn:schemas-upnp-org:service:WANIPConnection:1\">\n        </m:GetExternalIPAddress>\n    </SOAP-ENV:Body>\n</SOAP-ENV:Envelope>"

/-- `src/external.rs` line 21. -/
def GET_EXTERNAL_IP_SOAP_ACTION : String :=
  "\"urn:schemas-upnp-org:service:WANIPConnection:1#GetExternalIPAddress\""

/-- `src/external.rs` line 24. -/
def ADD_PORT_SOAP_ACTION : String :=
  "\"urn:schemas-upnp-org:service:WANIPConnection:1#AddPortMapping\""

/-- `src/external.rs` line 27. -/
def DELETE_PORT_SOAP_ACTION : String :=
  "\"urn:schemas-upnp-org:service:WANIPConnection:1#DeletePortMapping\""

/-- The type of the transport collaborator `soap::send`:
`send(url, action, body) -> Result<response_text, soap::Error>`. -/
abbrev SendFn := String → soap.Action → String → Except soap.Error String

section RegexEmbedding

/-- The literal `<NewExternalIPAddress>` head of the extraction regex at
`src/external.rs` line 79. -/
def ipOpenTag : List Char := "<NewExternalIPAddress>".data

/-- The literal `</NewExternalIPAddress>` tail of the extraction regex. -/
def ipCloseTag : List Char := "</NewExternalIPAddress>".data

/-- Strip `p` from the front of `s`, returning the remainder. -/
def stripPrefixChars : List Char → List Char → Option (List Char)
  | [], s => some s
  | _ :: _, [] => none
  | c :: p, x :: s => if x = c then stripPrefixChars p s else none

/-- Maximal leading run of decimal digits, plus the remainder.  (The Rust
regex crate's `\d` is the Unicode class Nd; the responses the claims quantify
over are ASCII, where the two coincide with `Char.isDigit`.) -/
def digitRun : List Char → List Char × List Char
  | [] => ([], [])
  | c :: cs =>
    if c.isDigit then
      let r := digitRun cs
      (c :: r.1, r.2)
    else ([], c :: cs)

/-- Decimal value of a digit string. -/
def digitsVal (s : List Char) : Nat :=
  s.foldl (fun a c => a * 10 + (c.toNat - 48)) 0

/-- Does the regex
`<NewExternalIPAddress>(\d+\.\d+\.\d+\.\d+)</NewExternalIPAddress>`
match at the *start* of `s`, and with what capture-group-1 text?

Each `\d+` is immediately followed by a token no digit can match (a literal
`.` or the `<` of the closing tag), so the backtracking search is forced:
every `\d+` must consume exactly the maximal digit run, and the regex matches
at this position iff this greedy decomposition does.  Hence the function
below is an exact embedding of the regex's anchored-match semantics. -/
def matchCaptureAt (s : List Char) : Option (List Char) :=
  match stripPrefixChars ipOpenTag s with
  | none => none
  | some r0 =>
    let p1 := digitRun r0
    if p1.1.isEmpty then none else
    match p1.2 with
    | '.' :: r1 =>
      let p2 := digitRun r1
      if p2.1.isEmpty then none else
      match p2.2 with
      | '.' :: r2 =>
        let p3 := digitRun r2
        if p3.1.isEmpty then none else
        match p3.2 with
        | '.' :: r3 =>
          let p4 := digitRun r3
          if p4.1.isEmpty then none else
          match stripPrefixChars ipCloseTag p4.2 with
          | none => none
          | some _ => some (p1.1 ++ '.' :: p2.1 ++ '.' :: p3.1 ++ '.' :: p4.1)
        | _ => none
      | _ => none
    | _ => none

/-- `Regex::captures`: the capture-group-1 text of the *leftmost* match
(group 1 always participates in a match of this regex, so the `cap.at(1)`
`None` arm at `src/external.rs` line 84 is unreachable).  Scans candidate
start positions left to right. -/
def findCapture : List Char → Option (List Char)
  | [] => none
  | c :: cs =>
    match matchCaptureAt (c :: cs) with
    | some g => some g
    | none => findCapture cs

/-- Embeds `str::parse::<Ipv4Addr>()`: four `.`-separated non-empty decimal
octet numerals, each of at most three digits and of value ≤ 255, consuming
the whole string.  The std parser reads at most three digits per octet in
every Rust version, so a longer digit run fails there (the fourth digit is
not the expected separator) exactly as the length check fails here.  Leading
zeros within three digits are accepted, as by the std parser of the crate's
era (pre-1.53); Rust ≥ 1.53 rejects them, and every theorem below stays in
the leading-zero-free region where all versions agree. -/
def parseIpv4 (s : List Char) : Option Ipv4Addr :=
  let p1 := digitRun s
  if p1.1.isEmpty ∨ 3 < p1.1.length ∨ 255 < digitsVal p1.1 then none else
  match p1.2 with
  | '.' :: r1 =>
    let p2 := digitRun r1
    if p2.1.isEmpty ∨ 3 < p2.1.length ∨ 255 < digitsVal p2.1 then none else
    match p2.2 with
    | '.' :: r2 =>
      let p3 := digitRun r2
      if p3.1.isEmpty ∨ 3 < p3.1.length ∨ 255 < digitsVal p3.1 then none else
      match p3.2 with
      | '.' :: r3 =>
        let p4 := digitRun r3
        if p4.1.isEmpty ∨ 3 < p4.1.length ∨ 255 < digitsVal p4.1 then none else
        match p4.2 with
        | [] => some ⟨digitsVal p1.1, digitsVal p2.1, digitsVal p3.1, digitsVal p4.1⟩
        | _ => none
      | _ => none
    | _ => none
  | _ => none

/-- Embeds `Regex::new(pat).is_match(text)` for the two ack patterns, whose
pattern strings contain no regex metacharacters: substring search. -/
def hasSubstr : List Char → List Char → Bool
  | t, pat =>
    match stripPrefixChars pat t with
    | some _ => true
    | none =>
      match t with
      | [] => false
      | _ :: ts => hasSubstr ts pat

/-- String-level substring test. -/
def hasSubstrStr (s pat : String) : Bool := hasSubstr s.data pat.data

end RegexEmbedding

/-- `src/external.rs` lines 78-89: `extract_address`.  `none` models the
panic of the `.unwrap()` at line 85 (reached when the regex matched but
`parse::<Ipv4Addr>` failed, e.g. an octet above 255). -/
def extract_address (text : String) : Option (Except RequestError Ipv4Addr) :=
  match findCapture text.data with
  | none => some (Except.error RequestError.InvalidResponse)
  | some ip =>
    match parseIpv4 ip with
    | some a => some (Except.ok a)
    | none => none

/-- `src/external.rs` lines 69-75: `get_external_ip`, parameterised by the
`soap::send` collaborator.  `none` models a panic inside `extract_address`. -/
def get_external_ip (send : SendFn) (gateway : Gateway) :
    Option (Except RequestError Ipv4Addr) :=
  let url := "http://" ++ ipv4Display gateway.addr.ip ++ ":" ++
    natDisplay gateway.addr.port ++ gateway.control_url
  match send url (soap.Action.new GET_EXTERNAL_IP_SOAP_ACTION) EXTERNAL_IP_REQUEST with
  | Except.error e => some (Except.error (RequestError.ofSoap e))
  | Except.ok text => extract_address text

/-- Head of the `AddPortMapping` body template (`src/external.rs` lines
95-98 plus the indentation before `<NewProtocol>`). -/
def apHead : String :=
"<?xml version=\"1.0\"?>\n<s:Envelope xmlns:s=\"http://schemas.xmlsoap.org/soap/envelope/\" s:encodingStyle=\"http://schemas.xmlsoap.org/soap/encoding/\">\n<s:Body>\n    <u:AddPortMapping xmlns:u=\"urn:schemas-upnp-org:service:WANIPConnection:1\">\n        "

/-- Separator between children of `AddPortMapping`: newline + 8 spaces. -/
def sep8 : String := "\n        "

/-- Tail of the `AddPortMapping` body template (lines 107-110). -/
def apTail : String := "\n    </u:AddPortMapping>\n</s:Body>\n</s:Envelope>\n"

/-- The `format!` at `src/external.rs` lines 95-112: the `AddPortMapping`
request body.  The concatenation below reproduces the template byte for
byte, with the six `{}` holes filled by the `Display` renderings the source
interpolates. -/
def add_port_body (protocol : PortMappingProtocol) (external_port : Nat)
    (local_addr : SocketAddr) (lease_duration : Nat) (description : String) : String :=
  apHead ++ "<NewProtocol>" ++ protocol.display ++ "</NewProtocol>" ++ sep8
    ++ "<NewExternalPort>" ++ natDisplay external_port ++ "</NewExternalPort>" ++ sep8
    ++ "<NewInternalClient>" ++ ipv4Display local_addr.ip ++ "</NewInternalClient>" ++ sep8
    ++ "<NewInternalPort>" ++ natDisplay local_addr.port ++ "</NewInternalPort>" ++ sep8
    ++ "<NewLeaseDuration>" ++ natDisplay lease_duration ++ "</NewLeaseDuration>" ++ sep8
    ++ "<NewPortMappingDescription>" ++ description ++ "</NewPortMappingDescription>" ++ sep8
    ++ "<NewEnabled>1</NewEnabled>" ++ sep8
    ++ "<NewRemoteHost></NewRemoteHost>" ++ apTail

/-- `src/external.rs` lines 91-122: `add_port`, parameterised by `soap::send`. -/
def add_port (send : SendFn) (gateway : Gateway) (protocol : PortMappingProtocol)
    (external_port : Nat) (local_addr : SocketAddr) (lease_duration : Nat)
    (description : String) : Except RequestError Unit :=
  let url := gatewayDisplay gateway
  let body := add_port_body protocol external_port local_addr lease_duration description
  match send url (soap.Action.new ADD_PORT_SOAP_ACTION) body with
  | Except.error e => Except.error (RequestError.ofSoap e)
  | Except.ok text =>
    if hasSubstrStr text "u:AddPortMappingResponse" then Except.ok ()
    else Except.error RequestError.InvalidResponse

/-- Head of the `DeletePortMapping` body template (`src/external.rs` lines
127-130 plus the indentation before `<NewProtocol>`). -/
def rpHead : String :=
"<?xml version=\"1.0\"?>\n<s:Envelope xmlns:s=\"http://schemas.xmlsoap.org/soap/envelope/\" s:encodingStyle=\"http://schemas.xmlsoap.org/soap/encoding/\">\n  <s:Body>\n    <u:DeletePortMapping xmlns:u=\"urn:schemas-upnp-org:service:WANIPConnection:1\">\n      "

/-- Separator between children of `DeletePortMapping`: newline + 6 spaces. -/
def sep6 : String := "\n      "

/-- Tail of the `DeletePortMapping` body template (lines 135-138). -/
def rpTail : String := "\n    </u:DeletePortMapping>\n  </s:Body>\n</s:Envelope>\n"

/-- The `format!` at `src/external.rs` lines 127-138: the `DeletePortMapping`
request body.  Note the source's `<NewRemoteHost>` element spans lines
133-134: a newline and six spaces stand between its opening and closing
tags, reproduced here as the middle `"\n      "` literal. -/
def remove_port_body (protocol : PortMappingProtocol) (external_port : Nat) : String :=
  rpHead ++ "<NewProtocol>" ++ protocol.display ++ "</NewProtocol>" ++ sep6
    ++ "<NewExternalPort>" ++ natDisplay external_port ++ "</NewExternalPort>" ++ sep6
    ++ "<NewRemoteHost>" ++ "\n      " ++ "</NewRemoteHost>" ++ rpTail

/-- `src/external.rs` lines 124-148: `remove_port`, parameterised by
`soap::send`. -/
def remove_port (send : SendFn) (gateway : Gateway) (protocol : PortMappingProtocol)
    (external_port : Nat) : Except RequestError Unit :=
  let url := gatewayDisplay gateway
  let body := remove_port_body protocol external_port
  match send url (soap.Action.new DELETE_PORT_SOAP_ACTION) body with
  | Except.error e => Except.error (RequestError.ofSoap e)
  | Except.ok text =>
    if hasSubstrStr text "u:DeletePortMappingResponse" then Except.ok ()
    else Except.error RequestError.InvalidResponse

section XmlWellFormedness

/-!
Spec-side notion of XML well-formedness (used by the claim that every
outbound body is "valid, well-formed XML").  A small tag-balance checker for
the XML subset these bodies live in: an optional `<?...?>` declaration,
nested elements whose names use XML name characters, attribute values
without `>`, optional self-closing tags, and character data between tags.
It checks that every `<` opens a tag that is properly terminated and that
closing tags match the innermost open element.  It is deliberately lenient
about character data (a raw `&` is not rejected), so acceptance is checked
only up to tag structure; every rejection it reports (unterminated tag or
mismatched closing tag) is a genuine XML well-formedness violation.
-/

/-- Scanner mode: between tags, or inside `<...>` accumulating the tag text
(in reverse). -/
inductive XMode where
  | content : XMode
  | tag (acc : List Char) : XMode
deriving DecidableEq

/-- Valid XML name characters (for the names occurring here). -/
def xmlNameOk (n : List Char) : Bool :=
  !n.isEmpty && n.all (fun c => c.isAlphanum || c = ':' || c = '-' || c = '_' || c = '.')

/-- Handle one complete tag text `t` (the characters between `<` and `>`)
against the stack of open element names: a declaration `?...?` leaves the
stack unchanged, `/name` must close the innermost open element, `name.../`
is self-closing, and `name attrs...` opens an element. -/
def processTag (stack : List (List Char)) (t : List Char) : Option (List (List Char)) :=
  match t with
  | '?' :: _ => if t.getLast? = some '?' then some stack else none
  | '/' :: n =>
    match stack with
    | top :: rest => if n = top then some rest else none
    | [] => none
  | _ =>
    if t.getLast? = some '/' then
      if xmlNameOk (t.dropLast.takeWhile (fun c => !c.isWhitespace)) then some stack else none
    else
      let n := t.takeWhile (fun c => !c.isWhitespace)
      if xmlNameOk n then some (n :: stack) else none

/-- Scanner state: open-element stack plus mode. -/
structure XSt where
  stack : List (List Char)
  mode : XMode
deriving DecidableEq

/-- One scanner step. -/
def xmlStep (s : XSt) (c : Char) : Option XSt :=
  match s.mode with
  | XMode.content =>
    if c = '<' then some ⟨s.stack, XMode.tag []⟩ else some ⟨s.stack, XMode.content⟩
  | XMode.tag acc =>
    if c = '>' then (processTag s.stack acc.reverse).map (fun st => ⟨st, XMode.content⟩)
    else some ⟨s.stack, XMode.tag (c :: acc)⟩

/-- Run the scanner over a character list. -/
def xmlRun (o : Option XSt) (cs : List Char) : Option XSt :=
  cs.foldl (fun o c => o.bind (fun s => xmlStep s c)) o

/-- A string passes the tag-balance well-formedness check iff scanning it
from the empty state succeeds and ends between tags with no element left
open. -/
def wellFormedXml (s : String) : Bool :=
  match xmlRun (some ⟨[], XMode.content⟩) s.data with
  | some ⟨[], XMode.content⟩ => true
  | _ => false

end XmlWellFormedness

/-- Spec-side predicate: the listed strings occur in `s` as
(non-overlapping) substrings, in the listed order. -/
def SubstringsInOrder : String → List String → Prop
  | _, [] => True
  | s, p :: ps => ∃ a b, s = a ++ p ++ b ∧ SubstringsInOrder b ps

/-- Open-element stack after the `AddPortMapping` envelope head. -/
def stAdd : List (List Char) :=
  ["u:AddPortMapping".data, "s:Body".data, "s:Envelope".data]

/-- Open-element stack after the `DeletePortMapping` envelope head. -/
def stDel : List (List Char) :=
  ["u:DeletePortMapping".data, "s:Body".data, "s:Envelope".data]

/-! ## Helper lemmas -/

theorem strAppendAssoc (a b c : String) : a ++ b ++ c = a ++ (b ++ c) :=
  String.ext (by simp [String.data_append, List.append_assoc])

theorem strEmptyAppend (s : String) : "" ++ s = s :=
  String.ext (by simp [String.data_append])

theorem substringsInOrder_skip {s : String} {ps : List String} (a : String)
    (h : SubstringsInOrder s ps) : SubstringsInOrder (a ++ s) ps := by
  cases ps with
  | nil => trivial
  | cons p ps =>
    obtain ⟨u, v, huv, hrest⟩ := h
    exact ⟨a ++ u, v, by rw [huv]; simp [strAppendAssoc], hrest⟩

theorem substringsInOrder_here3 {b : String} {ps : List String} (x y z : String)
    (h : SubstringsInOrder b ps) :
    SubstringsInOrder (x ++ (y ++ (z ++ b))) ((x ++ (y ++ z)) :: ps) :=
  ⟨"", b, by simp [strAppendAssoc, strEmptyAppend], h⟩

theorem substringsInOrder_here1 {b : String} {ps : List String} (x : String)
    (h : SubstringsInOrder b ps) : SubstringsInOrder (x ++ b) (x :: ps) :=
  ⟨"", b, by simp [strEmptyAppend], h⟩

theorem stripPrefixChars_eq_some {p s r : List Char} :
    stripPrefixChars p s = some r ↔ s = p ++ r := by
  induction p generalizing s with
  | nil => simp [stripPrefixChars]
  | cons c p ih =>
    cases s with
    | nil => simp [stripPrefixChars]
    | cons x s =>
      by_cases hx : x = c
      · subst hx; simp [stripPrefixChars, ih]
      · simp [stripPrefixChars, hx]

theorem hasSubstr_iff {t pat : List Char} :
    hasSubstr t pat = true ↔ ∃ u v, t = u ++ pat ++ v := by
  induction t with
  | nil =>
    rw [hasSubstr]
    cases hp : stripPrefixChars pat [] with
    | some r =>
      have h2 := stripPrefixChars_eq_some.mp hp
      have hpat : pat = [] := by cases pat with
        | nil => rfl
        | cons c cs => simp at h2
      subst hpat
      simp
    | none =>
      have hpat : pat ≠ [] := by
        intro h; subst h; simp [stripPrefixChars] at hp
      simp only [hp]
      constructor
      · intro h; simp at h
      · rintro ⟨u, v, huv⟩
        exfalso
        rcases List.append_eq_nil.mp huv.symm with ⟨h1, h2⟩
        rcases List.append_eq_nil.mp h1 with ⟨-, h3⟩
        exact hpat h3
  | cons c ts ih =>
    rw [hasSubstr]
    cases hp : stripPrefixChars pat (c :: ts) with
    | some r =>
      have h2 := stripPrefixChars_eq_some.mp hp
      simp only [eq_self_iff_true, true_iff]
      exact ⟨[], r, by simpa using h2⟩
    | none =>
      simp only []
      rw [ih]
      constructor
      · rintro ⟨u, v, huv⟩
        exact ⟨c :: u, v, by simp [huv]⟩
      · rintro ⟨u, v, huv⟩
        cases u with
        | nil =>
          exfalso
          have : stripPrefixChars pat (c :: ts) = some v :=
            stripPrefixChars_eq_some.mpr (by simpa using huv)
          rw [hp] at this; exact Option.noConfusion this
        | cons u0 u =>
          refine ⟨u, v, ?_⟩
          have := huv
          simp only [List.cons_append] at this
          exact (List.cons.injEq .. ▸ this).2

theorem hasSubstrStr_iff {s pat : String} :
    hasSubstrStr s pat = true ↔ ∃ a b : String, s = a ++ pat ++ b := by
  unfold hasSubstrStr
  rw [hasSubstr_iff]
  constructor
  · rintro ⟨u, v, huv⟩
    exact ⟨⟨u⟩, ⟨v⟩, String.ext (by simpa [String.data_append] using huv)⟩
  · rintro ⟨a, b, hab⟩
    exact ⟨a.data, b.data, by simp [hab, String.data_append]⟩

/-! ## Claim theorems -/

/-- C5 counterexample: the claim says `RequestError` is a tagged union with
exactly two variants; but the three concrete values
`HttpError ⟨"e"⟩`, `InvalidResponse` and `IoError ⟨"e"⟩` lie in three
pairwise distinct variants of the enum, so it has at least three. -/
theorem requestError_not_two_variants :
    RequestError.variantTag (RequestError.HttpError ⟨"e"⟩)
        ≠ RequestError.variantTag RequestError.InvalidResponse ∧
    RequestError.variantTag (RequestError.HttpError ⟨"e"⟩)
        ≠ RequestError.variantTag (RequestError.IoError ⟨"e"⟩) ∧
    RequestError.variantTag RequestError.InvalidResponse
        ≠ RequestError.variantTag (RequestError.IoError ⟨"e"⟩) := by
  refine ⟨?_, ?_, ?_⟩ <;> decide

/-- C5 (amended): `RequestError` is a tagged union with exactly three
variants — `HttpError` wrapping the transport HTTP error, `IoError` wrapping
the transport I/O error, and `InvalidResponse`; every value other than
`InvalidResponse` is the image of a transport error under the
`From<soap::Error>` conversion, so the first two variants jointly play the
spec's transport-failure role. -/
theorem requestError_three_variants :
    (∀ x : RequestError,
      (∃ e, x = RequestError.HttpError e) ∨ x = RequestError.InvalidResponse ∨
      (∃ e, x = RequestError.IoError e)) ∧
    (∀ x : RequestError,
      x = RequestError.InvalidResponse ∨ ∃ s : soap.Error, RequestError.ofSoap s = x) ∧
    (∀ s : soap.Error, RequestError.ofSoap s ≠ RequestError.InvalidResponse) := by
  refine ⟨?_, ?_, ?_⟩
  · intro x
    cases x with
    | HttpError e => exact Or.inl ⟨e, rfl⟩
    | InvalidResponse => exact Or.inr (Or.inl rfl)
    | IoError e => exact Or.inr (Or.inr ⟨e, rfl⟩)
  · intro x
    cases x with
    | HttpError e => exact Or.inr ⟨soap.Error.HttpError e, rfl⟩
    | InvalidResponse => exact Or.inl rfl
    | IoError e => exact Or.inr ⟨soap.Error.IoError e, rfl⟩
  · intro s
    cases s <;> simp [RequestError.ofSoap]

/-- C8: a transport failure `e` is propagated by all three public
operations, wrapped by the `From<soap::Error>` conversion; the conversion
preserves the underlying error unchanged and never produces
`InvalidResponse`. -/
theorem transport_failures_propagate (e : soap.Error) (g : Gateway)
    (p : PortMappingProtocol) (ep : Nat) (la : SocketAddr) (ld : Nat) (d : String) :
    get_external_ip (fun _ _ _ => Except.error e) g
      = some (Except.error (RequestError.ofSoap e)) ∧
    add_port (fun _ _ _ => Except.error e) g p ep la ld d
      = Except.error (RequestError.ofSoap e) ∧
    remove_port (fun _ _ _ => Except.error e) g p ep
      = Except.error (RequestError.ofSoap e) ∧
    RequestError.ofSoap e ≠ RequestError.InvalidResponse ∧
    (∀ eh : HyperError,
      RequestError.ofSoap (soap.Error.HttpError eh) = RequestError.HttpError eh) ∧
    (∀ ei : IoErr,
      RequestError.ofSoap (soap.Error.IoError ei) = RequestError.IoError ei) := by
  refine ⟨rfl, rfl, rfl, ?_, fun _ => rfl, fun _ => rfl⟩
  cases e <;> simp [RequestError.ofSoap]

/-- C9: the GetExternalIPAddress request is parameter-free and
deterministic: (1) a transport that ignores the URL observes exactly the
same call for every gateway, and (2) the SOAPAction header value and body
delivered to the transport are byte-identical to the fixed constants
`GET_EXTERNAL_IP_SOAP_ACTION` and `EXTERNAL_IP_REQUEST` on every call. -/
theorem get_external_ip_request_deterministic (g g' : Gateway)
    (f : soap.Action → String → Except soap.Error String) :
    get_external_ip (fun _ a b => f a b) g = get_external_ip (fun _ a b => f a b) g' ∧
    get_external_ip (fun _ a b => Except.error (soap.Error.IoError ⟨a.name ++ b⟩)) g
      = some (Except.error (RequestError.IoError
          ⟨GET_EXTERNAL_IP_SOAP_ACTION ++ EXTERNAL_IP_REQUEST⟩)) :=
  ⟨rfl, rfl⟩

/-- C10: the URL `get_external_ip` hands to the transport collaborator is
exactly `"http://"`, the gateway host, `":"`, the gateway port and the
control path concatenated in that order (observed here by a transport that
echoes the URL it received inside an error). -/
theorem get_external_ip_url (g : Gateway) :
    get_external_ip (fun url _ _ => Except.error (soap.Error.IoError ⟨url⟩)) g
      = some (Except.error (RequestError.IoError
          ⟨"http://" ++ ipv4Display g.addr.ip ++ ":" ++ natDisplay g.addr.port
            ++ g.control_url⟩)) :=
  rfl

/-- C3: after a successful transport send returning `text`, `add_port`
returns `Ok(())` iff `text` contains the literal substring
`u:AddPortMappingResponse` anywhere, and otherwise returns
`InvalidResponse`; likewise `remove_port` with
`u:DeletePortMappingResponse`. -/
theorem ack_iff_substring (text : String) (g : Gateway) (p : PortMappingProtocol)
    (ep : Nat) (la : SocketAddr) (ld : Nat) (d : String) :
    (add_port (fun _ _ _ => Except.ok text) g p ep la ld d = Except.ok () ↔
      ∃ a b : String, text = a ++ "u:AddPortMappingResponse" ++ b) ∧
    (add_port (fun _ _ _ => Except.ok text) g p ep la ld d
        = Except.error RequestError.InvalidResponse ↔
      ¬ ∃ a b : String, text = a ++ "u:AddPortMappingResponse" ++ b) ∧
    (remove_port (fun _ _ _ => Except.ok text) g p ep = Except.ok () ↔
      ∃ a b : String, text = a ++ "u:DeletePortMappingResponse" ++ b) ∧
    (remove_port (fun _ _ _ => Except.ok text) g p ep
        = Except.error RequestError.InvalidResponse ↔
      ¬ ∃ a b : String, text = a ++ "u:DeletePortMappingResponse" ++ b) := by
  have ha : add_port (fun _ _ _ => Except.ok text) g p ep la ld d =
      (if hasSubstrStr text "u:AddPortMappingResponse" then Except.ok ()
       else Except.error RequestError.InvalidResponse) := rfl
  have hr : remove_port (fun _ _ _ => Except.ok text) g p ep =
      (if hasSubstrStr text "u:DeletePortMappingResponse" then Except.ok ()
       else Except.error RequestError.InvalidResponse) := rfl
  rw [ha, hr, ← hasSubstrStr_iff, ← hasSubstrStr_iff]
  by_cases h1 : hasSubstrStr text "u:AddPortMappingResponse" = true <;>
    by_cases h2 : hasSubstrStr text "u:DeletePortMappingResponse" = true <;>
      simp [h1, h2]

/-- C6: for all parameters, the `AddPortMapping` body contains, in the fixed
order, the child elements NewProtocol (uppercase protocol literal),
NewExternalPort, NewInternalClient, NewInternalPort, NewLeaseDuration,
NewPortMappingDescription, NewEnabled with literal content `1`, and an empty
NewRemoteHost; and at the claim's concrete instance (TCP, 51413,
192.168.1.42:51413, lease 0) the body contains the six quoted substrings. -/
theorem add_port_body_elements :
    (∀ (p : PortMappingProtocol) (ep : Nat) (la : SocketAddr) (ld : Nat) (d : String),
      SubstringsInOrder (add_port_body p ep la ld d)
        ["<NewProtocol>" ++ p.display ++ "</NewProtocol>",
         "<NewExternalPort>" ++ natDisplay ep ++ "</NewExternalPort>",
         "<NewInternalClient>" ++ ipv4Display la.ip ++ "</NewInternalClient>",
         "<NewInternalPort>" ++ natDisplay la.port ++ "</NewInternalPort>",
         "<NewLeaseDuration>" ++ natDisplay ld ++ "</NewLeaseDuration>",
         "<NewPortMappingDescription>" ++ d ++ "</NewPortMappingDescription>",
         "<NewEnabled>1</NewEnabled>",
         "<NewRemoteHost></NewRemoteHost>"]) ∧
    (hasSubstrStr (add_port_body PortMappingProtocol.TCP 51413 ⟨⟨192, 168, 1, 42⟩, 51413⟩ 0 "test")
        "<NewProtocol>TCP</NewProtocol>" &&
     hasSubstrStr (add_port_body PortMappingProtocol.TCP 51413 ⟨⟨192, 168, 1, 42⟩, 51413⟩ 0 "test")
        "<NewExternalPort>51413</NewExternalPort>" &&
     hasSubstrStr (add_port_body PortMappingProtocol.TCP 51413 ⟨⟨192, 168, 1, 42⟩, 51413⟩ 0 "test")
        "<NewInternalClient>192.168.1.42</NewInternalClient>" &&
     hasSubstrStr (add_port_body PortMappingProtocol.TCP 51413 ⟨⟨192, 168, 1, 42⟩, 51413⟩ 0 "test")
        "<NewInternalPort>51413</NewInternalPort>" &&
     hasSubstrStr (add_port_body PortMappingProtocol.TCP 51413 ⟨⟨192, 168, 1, 42⟩, 51413⟩ 0 "test")
        "<NewLeaseDuration>0</NewLeaseDuration>" &&
     hasSubstrStr (add_port_body PortMappingProtocol.TCP 51413 ⟨⟨192, 168, 1, 42⟩, 51413⟩ 0 "test")
        "<NewEnabled>1</NewEnabled>") = true := by
  constructor
  · intro p ep la ld d
    simp only [add_port_body, strAppendAssoc]
    apply substringsInOrder_skip
    apply substringsInOrder_here3
    apply substringsInOrder_skip
    apply substringsInOrder_here3
    apply substringsInOrder_skip
    apply substringsInOrder_here3
    apply substringsInOrder_skip
    apply substringsInOrder_here3
    apply substringsInOrder_skip
    apply substringsInOrder_here3
    apply substringsInOrder_skip
    apply substringsInOrder_here3
    apply substringsInOrder_skip
    apply substringsInOrder_here1
    apply substringsInOrder_skip
    apply substringsInOrder_here1
    trivial
  · rfl

/-- C7 counterexample: the claim says the `NewRemoteHost` element of the
`DeletePortMapping` body has no content between its opening and closing
tags; at protocol TCP, external_port 1234 the body does *not* contain the
adjacent pair `<NewRemoteHost></NewRemoteHost>` — it contains
`<NewRemoteHost>`, a newline plus six spaces, then `</NewRemoteHost>`. -/
theorem remove_port_body_remotehost_not_empty :
    hasSubstrStr (remove_port_body PortMappingProtocol.TCP 1234)
      "<NewRemoteHost></NewRemoteHost>" = false ∧
    hasSubstrStr (remove_port_body PortMappingProtocol.TCP 1234)
      "<NewRemoteHost>\n      </NewRemoteHost>" = true := by
  constructor <;> rfl

/-- C7 (amended): for every protocol and external_port, the
`DeletePortMapping` body is exactly the fixed envelope (`rpHead`/`sep6`/
`rpTail`) around the three elements NewProtocol, NewExternalPort and
NewRemoteHost, in that order, and the content between NewRemoteHost's
opening and closing tags is exactly a newline plus six spaces — whitespace
only, not empty. -/
theorem remove_port_body_elements (p : PortMappingProtocol) (ep : Nat) :
    remove_port_body p ep
      = rpHead ++ ("<NewProtocol>" ++ p.display ++ "</NewProtocol>") ++ sep6
        ++ ("<NewExternalPort>" ++ natDisplay ep ++ "</NewExternalPort>") ++ sep6
        ++ ("<NewRemoteHost>" ++ "\n      " ++ "</NewRemoteHost>") ++ rpTail ∧
    SubstringsInOrder (remove_port_body p ep)
      ["<NewProtocol>" ++ p.display ++ "</NewProtocol>",
       "<NewExternalPort>" ++ natDisplay ep ++ "</NewExternalPort>",
       "<NewRemoteHost>" ++ "\n      " ++ "</NewRemoteHost>"] ∧
    ("\n      ").data.all (fun c => c.isWhitespace) = true := by
  refine ⟨?_, ?_, by decide⟩
  · simp [strAppendAssoc, remove_port_body]
  · simp only [remove_port_body, strAppendAssoc]
    apply substringsInOrder_skip
    apply substringsInOrder_here3
    apply substringsInOrder_skip
    apply substringsInOrder_here3
    apply substringsInOrder_skip
    apply substringsInOrder_here3
    trivial

/-- C1: evaluating `extract_address` at the failing input
`<NewExternalIPAddress>999.1.2.3</NewExternalIPAddress>`: the regex matches
(`999` is numeric), `parse::<Ipv4Addr>` fails (octet above 255), and the
`.unwrap()` at `src/external.rs` line 85 panics (modelled as `none`) instead
of returning `InvalidResponse`.  By contrast, a response with no matching
element does return `InvalidResponse`. -/
theorem extract_address_out_of_range_panics :
    extract_address "<NewExternalIPAddress>999.1.2.3</NewExternalIPAddress>" = none ∧
    extract_address "<body>no address</body>"
      = some (Except.error RequestError.InvalidResponse) := by
  constructor <;> rfl

/-- C2 counterexample: the claim quantifies over *every* response text
containing `<NewExternalIPAddress>a.b.c.d</NewExternalIPAddress>`; this text
contains that substring for a.b.c.d = 2.2.2.2, yet `extract_address`
returns the *leftmost* match 1.1.1.1, not 2.2.2.2. -/
theorem extract_address_takes_leftmost :
    hasSubstrStr
      "<NewExternalIPAddress>1.1.1.1</NewExternalIPAddress><NewExternalIPAddress>2.2.2.2</NewExternalIPAddress>"
      "<NewExternalIPAddress>2.2.2.2</NewExternalIPAddress>" = true ∧
    extract_address
      "<NewExternalIPAddress>1.1.1.1</NewExternalIPAddress><NewExternalIPAddress>2.2.2.2</NewExternalIPAddress>"
      = some (Except.ok ⟨1, 1, 1, 1⟩) ∧
    (⟨1, 1, 1, 1⟩ : Ipv4Addr) ≠ ⟨2, 2, 2, 2⟩ := by
  refine ⟨rfl, rfl, by decide⟩

/-! ## Lemmas about the regex embedding -/

theorem stripPrefixChars_append (p r : List Char) :
    stripPrefixChars p (p ++ r) = some r := stripPrefixChars_eq_some.mpr rfl

theorem digitRun_append {d r : List Char} (hd : ∀ c ∈ d, c.isDigit = true)
    (hr : ∀ c, r.head? = some c → c.isDigit = false) :
    digitRun (d ++ r) = (d, r) := by
  induction d with
  | nil =>
    simp only [List.nil_append]
    cases r with
    | nil => rfl
    | cons c cs =>
      have := hr c rfl
      simp [digitRun, this]
  | cons a d ih =>
    have ha : a.isDigit = true := hd a (by simp)
    have hd' : ∀ c ∈ d, c.isDigit = true := fun c hc => hd c (by simp [hc])
    simp [digitRun, ha, ih hd']

theorem digitRun_all {d : List Char} (hd : ∀ c ∈ d, c.isDigit = true) :
    digitRun d = (d, []) := by
  have := digitRun_append (r := []) hd (by intro c h; simp at h)
  simpa using this

theorem head_dot_not_digit : ∀ (l : List Char) (c : Char),
    ('.' :: l).head? = some c → c.isDigit = false := by
  intro l c h
  simp only [List.head?_cons, Option.some.injEq] at h
  subst h
  decide

theorem head_closeTag_not_digit (post : List Char) : ∀ c : Char,
    (ipCloseTag ++ post).head? = some c → c.isDigit = false := by
  intro c h
  have he : (ipCloseTag ++ post).head? = some '<' := rfl
  rw [he] at h
  cases h
  decide

theorem isEmpty_false_of_ne_nil {d : List Char} (h : d ≠ []) : d.isEmpty = false := by
  cases d with
  | nil => exact absurd rfl h
  | cons a l => rfl

theorem matchCaptureAt_quad {d1 d2 d3 d4 : List Char} (post : List Char)
    (h1 : d1 ≠ [] ∧ (∀ c ∈ d1, c.isDigit = true))
    (h2 : d2 ≠ [] ∧ (∀ c ∈ d2, c.isDigit = true))
    (h3 : d3 ≠ [] ∧ (∀ c ∈ d3, c.isDigit = true))
    (h4 : d4 ≠ [] ∧ (∀ c ∈ d4, c.isDigit = true)) :
    matchCaptureAt
        (ipOpenTag ++ (d1 ++ '.' :: (d2 ++ '.' :: (d3 ++ '.' :: (d4 ++ (ipCloseTag ++ post))))))
      = some (d1 ++ '.' :: (d2 ++ '.' :: (d3 ++ '.' :: d4))) := by
  obtain ⟨h1n, h1d⟩ := h1
  obtain ⟨h2n, h2d⟩ := h2
  obtain ⟨h3n, h3d⟩ := h3
  obtain ⟨h4n, h4d⟩ := h4
  have e1 : digitRun (d1 ++ '.' :: (d2 ++ '.' :: (d3 ++ '.' :: (d4 ++ (ipCloseTag ++ post)))))
      = (d1, '.' :: (d2 ++ '.' :: (d3 ++ '.' :: (d4 ++ (ipCloseTag ++ post))))) :=
    digitRun_append h1d (head_dot_not_digit _)
  have e2 : digitRun (d2 ++ '.' :: (d3 ++ '.' :: (d4 ++ (ipCloseTag ++ post))))
      = (d2, '.' :: (d3 ++ '.' :: (d4 ++ (ipCloseTag ++ post)))) :=
    digitRun_append h2d (head_dot_not_digit _)
  have e3 : digitRun (d3 ++ '.' :: (d4 ++ (ipCloseTag ++ post)))
      = (d3, '.' :: (d4 ++ (ipCloseTag ++ post))) :=
    digitRun_append h3d (head_dot_not_digit _)
  have e4 : digitRun (d4 ++ (ipCloseTag ++ post)) = (d4, ipCloseTag ++ post) :=
    digitRun_append h4d (head_closeTag_not_digit post)
  simp only [matchCaptureAt, stripPrefixChars_append, e1, e2, e3, e4,
    isEmpty_false_of_ne_nil h1n, isEmpty_false_of_ne_nil h2n,
    isEmpty_false_of_ne_nil h3n, isEmpty_false_of_ne_nil h4n,
    Bool.false_eq_true, if_false]
  simp [List.cons_append, List.append_assoc]

theorem findCapture_of_matchAt {s g : List Char}
    (h : matchCaptureAt s = some g) : findCapture s = some g := by
  cases s with
  | nil =>
    rw [show matchCaptureAt ([] : List Char) = none from rfl] at h
    exact Option.noConfusion h
  | cons c cs =>
    unfold findCapture
    rw [h]

theorem findCapture_append_of_none {pre rest : List Char}
    (h : ∀ i, i < pre.length → matchCaptureAt (pre.drop i ++ rest) = none) :
    findCapture (pre ++ rest) = findCapture rest := by
  induction pre with
  | nil => rfl
  | cons c pre ih =>
    have h0 : matchCaptureAt (c :: (pre ++ rest)) = none := by
      have := h 0 (by simp)
      simpa using this
    have hstep : findCapture (c :: (pre ++ rest)) = findCapture (pre ++ rest) := by
      conv_lhs => rw [findCapture]
      rw [h0]
    rw [List.cons_append, hstep]
    exact ih (fun i hi => by
      have := h (i + 1) (by simpa using Nat.succ_lt_succ hi)
      simpa using this)

theorem parseIpv4_quad {d1 d2 d3 d4 : List Char}
    (h1 : d1 ≠ [] ∧ (∀ c ∈ d1, c.isDigit = true) ∧ d1.length ≤ 3 ∧ digitsVal d1 ≤ 255)
    (h2 : d2 ≠ [] ∧ (∀ c ∈ d2, c.isDigit = true) ∧ d2.length ≤ 3 ∧ digitsVal d2 ≤ 255)
    (h3 : d3 ≠ [] ∧ (∀ c ∈ d3, c.isDigit = true) ∧ d3.length ≤ 3 ∧ digitsVal d3 ≤ 255)
    (h4 : d4 ≠ [] ∧ (∀ c ∈ d4, c.isDigit = true) ∧ d4.length ≤ 3 ∧ digitsVal d4 ≤ 255) :
    parseIpv4 (d1 ++ '.' :: (d2 ++ '.' :: (d3 ++ '.' :: d4)))
      = some ⟨digitsVal d1, digitsVal d2, digitsVal d3, digitsVal d4⟩ := by
  obtain ⟨h1n, h1d, h1l, h1v⟩ := h1
  obtain ⟨h2n, h2d, h2l, h2v⟩ := h2
  obtain ⟨h3n, h3d, h3l, h3v⟩ := h3
  obtain ⟨h4n, h4d, h4l, h4v⟩ := h4
  have e1 : digitRun (d1 ++ '.' :: (d2 ++ '.' :: (d3 ++ '.' :: d4)))
      = (d1, '.' :: (d2 ++ '.' :: (d3 ++ '.' :: d4))) :=
    digitRun_append h1d (head_dot_not_digit _)
  have e2 : digitRun (d2 ++ '.' :: (d3 ++ '.' :: d4))
      = (d2, '.' :: (d3 ++ '.' :: d4)) :=
    digitRun_append h2d (head_dot_not_digit _)
  have e3 : digitRun (d3 ++ '.' :: d4) = (d3, '.' :: d4) :=
    digitRun_append h3d (head_dot_not_digit _)
  have e4 : digitRun d4 = (d4, []) := digitRun_all h4d
  simp only [parseIpv4, e1, e2, e3, e4,
    isEmpty_false_of_ne_nil h1n, isEmpty_false_of_ne_nil h2n,
    isEmpty_false_of_ne_nil h3n, isEmpty_false_of_ne_nil h4n,
    Bool.false_eq_true, false_or, Nat.not_lt.mpr h1v, Nat.not_lt.mpr h2v,
    Nat.not_lt.mpr h3v, Nat.not_lt.mpr h4v, Nat.not_lt.mpr h1l,
    Nat.not_lt.mpr h2l, Nat.not_lt.mpr h3l, Nat.not_lt.mpr h4l, if_false]

/-- C2 (amended): for an IPv4 literal `d1.d2.d3.d4` whose octets are
canonically written decimal numerals of value 0-255 (non-empty, all digits,
at most three digits, and no leading zeros — the last condition keeps the
statement inside the region where every Rust version's `Ipv4Addr` parser
agrees, since the leading-zero policy changed in Rust 1.53), and every
response text of the form `pre` ++ `<NewExternalIPAddress>d1.d2.d3.d4`
`</NewExternalIPAddress>` ++ `post` in which that element occurrence is the
*leftmost* match of the extraction pattern (no match starts at any position
inside `pre`), `extract_address` returns `Ok` with exactly the address
`d1.d2.d3.d4`. -/
theorem extract_address_leftmost_ok (pre : String) (d1 d2 d3 d4 : List Char) (post : String)
    (hleft : ∀ i, i < pre.data.length → matchCaptureAt (pre.data.drop i
      ++ (ipOpenTag ++ (d1 ++ '.' :: (d2 ++ '.' :: (d3 ++ '.' :: (d4 ++ (ipCloseTag
        ++ post.data))))))) = none)
    (h1 : d1 ≠ [] ∧ (∀ c ∈ d1, c.isDigit = true) ∧ d1.length ≤ 3 ∧ digitsVal d1 ≤ 255 ∧
      (d1 = ['0'] ∨ d1.head? ≠ some '0'))
    (h2 : d2 ≠ [] ∧ (∀ c ∈ d2, c.isDigit = true) ∧ d2.length ≤ 3 ∧ digitsVal d2 ≤ 255 ∧
      (d2 = ['0'] ∨ d2.head? ≠ some '0'))
    (h3 : d3 ≠ [] ∧ (∀ c ∈ d3, c.isDigit = true) ∧ d3.length ≤ 3 ∧ digitsVal d3 ≤ 255 ∧
      (d3 = ['0'] ∨ d3.head? ≠ some '0'))
    (h4 : d4 ≠ [] ∧ (∀ c ∈ d4, c.isDigit = true) ∧ d4.length ≤ 3 ∧ digitsVal d4 ≤ 255 ∧
      (d4 = ['0'] ∨ d4.head? ≠ some '0')) :
    extract_address
        ⟨pre.data ++ (ipOpenTag ++ (d1 ++ '.' :: (d2 ++ '.' :: (d3 ++ '.' :: (d4
          ++ (ipCloseTag ++ post.data))))))⟩
      = some (Except.ok ⟨digitsVal d1, digitsVal d2, digitsVal d3, digitsVal d4⟩) := by
  unfold extract_address
  rw [show (⟨pre.data ++ (ipOpenTag ++ (d1 ++ '.' :: (d2 ++ '.' :: (d3 ++ '.' :: (d4
      ++ (ipCloseTag ++ post.data))))))⟩ : String).data
    = pre.data ++ (ipOpenTag ++ (d1 ++ '.' :: (d2 ++ '.' :: (d3 ++ '.' :: (d4
      ++ (ipCloseTag ++ post.data))))))
    from rfl]
  rw [findCapture_append_of_none hleft]
  rw [findCapture_of_matchAt (matchCaptureAt_quad post.data ⟨h1.1, h1.2.1⟩ ⟨h2.1, h2.2.1⟩
    ⟨h3.1, h3.2.1⟩ ⟨h4.1, h4.2.1⟩)]
  simp only [parseIpv4_quad ⟨h1.1, h1.2.1, h1.2.2.1, h1.2.2.2.1⟩
    ⟨h2.1, h2.2.1, h2.2.2.1, h2.2.2.2.1⟩ ⟨h3.1, h3.2.1, h3.2.2.1, h3.2.2.2.1⟩
    ⟨h4.1, h4.2.1, h4.2.2.1, h4.2.2.2.1⟩]

/-- C2 witness: instantiating the amended theorem at 92.168.0.1, with a
non-trivial prefix `<r>` (containing no earlier match) and trailing text
`</r>`. -/
theorem extract_address_leftmost_ok_witness :
    extract_address
        ⟨"<r>".data ++ (ipOpenTag ++ (['9', '2'] ++ '.' :: (['1', '6', '8'] ++ '.'
          :: (['0'] ++ '.' :: (['1'] ++ (ipCloseTag ++ "</r>".data))))))⟩
      = some (Except.ok ⟨digitsVal ['9', '2'], digitsVal ['1', '6', '8'], digitsVal ['0'],
          digitsVal ['1']⟩) :=
  extract_address_leftmost_ok "<r>" ['9', '2'] ['1', '6', '8'] ['0'] ['1'] "</r>"
    (by decide) (by decide) (by decide) (by decide) (by decide)

/-! ## Lemmas about the XML well-formedness scanner -/

theorem xmlRun_append (o : Option XSt) (a b : List Char) :
    xmlRun o (a ++ b) = xmlRun (xmlRun o a) b :=
  List.foldl_append ..

theorem xmlRun_chunk {o : Option XSt} {st : XSt} {a : List Char}
    (h : xmlRun o a = some st) (b : List Char) :
    xmlRun o (a ++ b) = xmlRun (some st) b := by
  rw [xmlRun_append, h]

theorem xmlRun_skip {st : List (List Char)} {xs : List Char}
    (h : ∀ c ∈ xs, c ≠ '<') :
    xmlRun (some ⟨st, XMode.content⟩) xs = some ⟨st, XMode.content⟩ := by
  induction xs with
  | nil => rfl
  | cons c cs ih =>
    have hc : c ≠ '<' := h c (by simp)
    have hstep : xmlStep ⟨st, XMode.content⟩ c = some ⟨st, XMode.content⟩ := by
      simp [xmlStep, hc]
    have hone : xmlRun (some ⟨st, XMode.content⟩) (c :: cs)
        = xmlRun (some ⟨st, XMode.content⟩) cs := by
      simp [xmlRun, List.foldl_cons, hstep]
    rw [hone]
    exact ih (fun x hx => h x (by simp [hx]))

theorem xmlRun_skip_chunk {st : List (List Char)} {xs : List Char}
    (h : ∀ c ∈ xs, c ≠ '<') (b : List Char) :
    xmlRun (some ⟨st, XMode.content⟩) (xs ++ b) = xmlRun (some ⟨st, XMode.content⟩) b := by
  rw [xmlRun_append, xmlRun_skip h]

theorem digitChar_ne_lt (d : Nat) : digitChar d ≠ '<' := by
  unfold digitChar
  split <;> decide

theorem natDigitsAux_ne_lt (fuel : Nat) : ∀ (n : Nat), ∀ c ∈ natDigitsAux fuel n, c ≠ '<' := by
  induction fuel with
  | zero => intro n c hc; simp [natDigitsAux] at hc
  | succ fuel ih =>
    intro n c hc
    rw [natDigitsAux] at hc
    by_cases hn : n < 10
    · rw [if_pos hn] at hc
      simp only [List.mem_singleton] at hc
      subst hc
      exact digitChar_ne_lt n
    · rw [if_neg hn] at hc
      rcases List.mem_append.mp hc with h | h
      · exact ih _ c h
      · simp only [List.mem_singleton] at h
        subst h
        exact digitChar_ne_lt _

theorem natDisplay_ne_lt (n : Nat) : ∀ c ∈ (natDisplay n).data, c ≠ '<' :=
  natDigitsAux_ne_lt (n + 1) n

theorem ipv4Display_ne_lt (a : Ipv4Addr) : ∀ c ∈ (ipv4Display a).data, c ≠ '<' := by
  intro c hc
  have hdot : (".".data : List Char) = ['.'] := rfl
  simp only [ipv4Display, String.data_append, hdot, List.mem_append,
    List.mem_singleton] at hc
  rcases hc with ((((((h | h) | h) | h) | h) | h) | h)
  all_goals first
    | exact natDisplay_ne_lt _ c h
    | (subst h; decide)

theorem protocolDisplay_ne_lt (p : PortMappingProtocol) :
    ∀ c ∈ (p.display).data, c ≠ '<' := by
  cases p <;> decide

theorem add_port_body_wellFormed (p : PortMappingProtocol) (ep : Nat)
    (la : SocketAddr) (ld : Nat) (desc : String)
    (hdesc : ∀ c ∈ desc.data, c ≠ '<') :
    wellFormedXml (add_port_body p ep la ld desc) = true := by
  have h0 : xmlRun (some ⟨[], XMode.content⟩) apHead.data
      = some ⟨stAdd, XMode.content⟩ := by decide
  have hsep : xmlRun (some ⟨stAdd, XMode.content⟩) sep8.data
      = some ⟨stAdd, XMode.content⟩ := by decide
  have hpo : xmlRun (some ⟨stAdd, XMode.content⟩) "<NewProtocol>".data
      = some ⟨"NewProtocol".data :: stAdd, XMode.content⟩ := by decide
  have hpc : xmlRun (some ⟨"NewProtocol".data :: stAdd, XMode.content⟩) "</NewProtocol>".data
      = some ⟨stAdd, XMode.content⟩ := by decide
  have heo : xmlRun (some ⟨stAdd, XMode.content⟩) "<NewExternalPort>".data
      = some ⟨"NewExternalPort".data :: stAdd, XMode.content⟩ := by decide
  have hec : xmlRun (some ⟨"NewExternalPort".data :: stAdd, XMode.content⟩)
      "</NewExternalPort>".data = some ⟨stAdd, XMode.content⟩ := by decide
  have hco : xmlRun (some ⟨stAdd, XMode.content⟩) "<NewInternalClient>".data
      = some ⟨"NewInternalClient".data :: stAdd, XMode.content⟩ := by decide
  have hcc : xmlRun (some ⟨"NewInternalClient".data :: stAdd, XMode.content⟩)
      "</NewInternalClient>".data = some ⟨stAdd, XMode.content⟩ := by decide
  have hio : xmlRun (some ⟨stAdd, XMode.content⟩) "<NewInternalPort>".data
      = some ⟨"NewInternalPort".data :: stAdd, XMode.content⟩ := by decide
  have hic : xmlRun (some ⟨"NewInternalPort".data :: stAdd, XMode.content⟩)
      "</NewInternalPort>".data = some ⟨stAdd, XMode.content⟩ := by decide
  have hlo : xmlRun (some ⟨stAdd, XMode.content⟩) "<NewLeaseDuration>".data
      = some ⟨"NewLeaseDuration".data :: stAdd, XMode.content⟩ := by decide
  have hlc : xmlRun (some ⟨"NewLeaseDuration".data :: stAdd, XMode.content⟩)
      "</NewLeaseDuration>".data = some ⟨stAdd, XMode.content⟩ := by decide
  have hdo : xmlRun (some ⟨stAdd, XMode.content⟩) "<NewPortMappingDescription>".data
      = some ⟨"NewPortMappingDescription".data :: stAdd, XMode.content⟩ := by decide
  have hdc : xmlRun (some ⟨"NewPortMappingDescription".data :: stAdd, XMode.content⟩)
      "</NewPortMappingDescription>".data = some ⟨stAdd, XMode.content⟩ := by decide
  have hen : xmlRun (some ⟨stAdd, XMode.content⟩) "<NewEnabled>1</NewEnabled>".data
      = some ⟨stAdd, XMode.content⟩ := by decide
  have hrh : xmlRun (some ⟨stAdd, XMode.content⟩) "<NewRemoteHost></NewRemoteHost>".data
      = some ⟨stAdd, XMode.content⟩ := by decide
  have htail : xmlRun (some ⟨stAdd, XMode.content⟩) apTail.data
      = some ⟨[], XMode.content⟩ := by decide
  unfold wellFormedXml
  simp only [add_port_body, String.data_append, List.append_assoc]
  rw [xmlRun_chunk h0, xmlRun_chunk hpo, xmlRun_skip_chunk (protocolDisplay_ne_lt p),
    xmlRun_chunk hpc, xmlRun_chunk hsep,
    xmlRun_chunk heo, xmlRun_skip_chunk (natDisplay_ne_lt ep), xmlRun_chunk hec,
    xmlRun_chunk hsep,
    xmlRun_chunk hco, xmlRun_skip_chunk (ipv4Display_ne_lt la.ip), xmlRun_chunk hcc,
    xmlRun_chunk hsep,
    xmlRun_chunk hio, xmlRun_skip_chunk (natDisplay_ne_lt la.port), xmlRun_chunk hic,
    xmlRun_chunk hsep,
    xmlRun_chunk hlo, xmlRun_skip_chunk (natDisplay_ne_lt ld), xmlRun_chunk hlc,
    xmlRun_chunk hsep,
    xmlRun_chunk hdo, xmlRun_skip_chunk hdesc, xmlRun_chunk hdc,
    xmlRun_chunk hsep,
    xmlRun_chunk hen, xmlRun_chunk hsep,
    xmlRun_chunk hrh, htail]

theorem remove_port_body_wellFormed (p : PortMappingProtocol) (ep : Nat) :
    wellFormedXml (remove_port_body p ep) = true := by
  have h0 : xmlRun (some ⟨[], XMode.content⟩) rpHead.data
      = some ⟨stDel, XMode.content⟩ := by decide
  have hsep : xmlRun (some ⟨stDel, XMode.content⟩) sep6.data
      = some ⟨stDel, XMode.content⟩ := by decide
  have hpo : xmlRun (some ⟨stDel, XMode.content⟩) "<NewProtocol>".data
      = some ⟨"NewProtocol".data :: stDel, XMode.content⟩ := by decide
  have hpc : xmlRun (some ⟨"NewProtocol".data :: stDel, XMode.content⟩) "</NewProtocol>".data
      = some ⟨stDel, XMode.content⟩ := by decide
  have heo : xmlRun (some ⟨stDel, XMode.content⟩) "<NewExternalPort>".data
      = some ⟨"NewExternalPort".data :: stDel, XMode.content⟩ := by decide
  have hec : xmlRun (some ⟨"NewExternalPort".data :: stDel, XMode.content⟩)
      "</NewExternalPort>".data = some ⟨stDel, XMode.content⟩ := by decide
  have hro : xmlRun (some ⟨stDel, XMode.content⟩) "<NewRemoteHost>".data
      = some ⟨"NewRemoteHost".data :: stDel, XMode.content⟩ := by decide
  have hws : xmlRun (some ⟨"NewRemoteHost".data :: stDel, XMode.content⟩) "\n      ".data
      = some ⟨"NewRemoteHost".data :: stDel, XMode.content⟩ := by decide
  have hrc : xmlRun (some ⟨"NewRemoteHost".data :: stDel, XMode.content⟩)
      "</NewRemoteHost>".data = some ⟨stDel, XMode.content⟩ := by decide
  have htail : xmlRun (some ⟨stDel, XMode.content⟩) rpTail.data
      = some ⟨[], XMode.content⟩ := by decide
  unfold wellFormedXml
  simp only [remove_port_body, String.data_append, List.append_assoc]
  rw [xmlRun_chunk h0, xmlRun_chunk hpo, xmlRun_skip_chunk (protocolDisplay_ne_lt p),
    xmlRun_chunk hpc, xmlRun_chunk hsep,
    xmlRun_chunk heo, xmlRun_skip_chunk (natDisplay_ne_lt ep), xmlRun_chunk hec,
    xmlRun_chunk hsep,
    xmlRun_chunk hro, xmlRun_chunk hws, xmlRun_chunk hrc, htail]

/-- C4 counterexample: the claim says *no* caller-supplied string can break
the envelope's XML structure; but `add_port` interpolates the description
verbatim, so the description `"</s:Body>"` yields a body that fails the
tag-balance well-formedness check (a closing tag that does not match the
innermost open element). -/
theorem add_port_body_markup_breaks :
    wellFormedXml
      (add_port_body PortMappingProtocol.TCP 1 ⟨⟨192, 168, 1, 2⟩, 1⟩ 0 "</s:Body>")
      = false := by decide

/-- C4 (amended): the `DeletePortMapping` and `GetExternalIPAddress` bodies
(which interpolate no caller-supplied text) are always well-formed XML, and
the `AddPortMapping` body is well-formed for every choice of the remaining
parameters provided the caller-supplied description contains no `<`; a
description containing markup can break the envelope structure (the code
does not escape it). -/
theorem request_bodies_wellFormed :
    (∀ p ep, wellFormedXml (remove_port_body p ep) = true) ∧
    wellFormedXml EXTERNAL_IP_REQUEST = true ∧
    (∀ p ep la ld (desc : String), (∀ c ∈ desc.data, c ≠ '<') →
      wellFormedXml (add_port_body p ep la ld desc) = true) :=
  ⟨remove_port_body_wellFormed, by decide, add_port_body_wellFormed⟩

/-- C4 witness: the amended theorem applied at the concrete description
`"test"`, which contains no `<`. -/
theorem request_bodies_wellFormed_witness :
    wellFormedXml
      (add_port_body PortMappingProtocol.TCP 51413 ⟨⟨192, 168, 1, 42⟩, 51413⟩ 0 "test")
      = true :=
  request_bodies_wellFormed.2.2 PortMappingProtocol.TCP 51413 ⟨⟨192, 168, 1, 42⟩, 51413⟩ 0
    "test" (by decide)

end Igd
